import Mathlib

/-!
Shallow embedding of the 3D-preview core of the cityweft front end
(`src/components/ModelPreview.tsx` and its variant `src/unnamed/part_004`):
point-instance classification, node ingestion/instance synthesis, layer
visibility, the climate-fetch effect, the environmental overlays
(wind field, solar path, sun study, map underlay) and the render-capture
pipeline.  JavaScript numbers are embedded as exact rationals (every
arithmetic fact used by the theorems below is exact in both semantics),
strings as Lean strings, and JS truthiness-based defaulting (`x || d`)
explicitly.
-/

namespace CityWeft

/-! ### JS string primitives used by the component

`String.prototype.toLowerCase` restricted to ASCII (every tag constant in
the source is ASCII), `String.prototype.trim`, `String.prototype.includes`.
-/

/-- Whitespace characters removed by `String.prototype.trim` (the ASCII ones). -/
def jsWhitespace (c : Char) : Bool :=
  c = ' ' || c = '\t' || c = '\n' || c = '\r' || c = '\x0b' || c = '\x0c'

/-- Embeds `toLowerCase()` on the character list. -/
def jsToLower (s : String) : String := String.mk (s.data.map Char.toLower)

/-- Embeds `trim()`: drop leading and trailing whitespace. -/
def jsTrim (s : String) : String :=
  String.mk (((s.data.dropWhile jsWhitespace).reverse.dropWhile jsWhitespace).reverse)

/-- Does `pat` occur at the head of `l`? -/
def leadsWith : List Char → List Char → Bool
  | [], _ => true
  | _ :: _, [] => false
  | p :: ps, c :: cs => p = c && leadsWith ps cs

/-- Does `pat` occur as a contiguous sublist of `l`? -/
def hasSub (pat : List Char) : List Char → Bool
  | [] => pat.isEmpty
  | c :: cs => leadsWith pat (c :: cs) || hasSub pat cs

/-- Embeds `s.includes(pat)`. -/
def jsIncludes (s pat : String) : Bool := hasSub pat.data s.data

/-- JS `v || d` for an optional string field: `undefined` and `""` are falsy. -/
def jsStrOr (v : Option String) (d : String) : String :=
  match v with
  | none => d
  | some s => if s = "" then d else s

/-- JS `v || d` for an optional numeric field: `undefined` and `0` are falsy. -/
def jsNumOr (v : Option ℚ) (d : ℚ) : ℚ :=
  match v with
  | none => d
  | some q => if q = 0 then d else q

/-! ### Point-instance classification (geometry effect, nodes branch)

Source:
  const rawType = node.instanceType || node.type || 'default';
  const nodeType = rawType.toLowerCase().trim();
  const knownNonTreeTypes = ['shrubbery', 'utilitypole', 'bench', 'hydrant',
                             'rock', 'illustration', 'adcolumn', 'ac_unit'];
  const isTree = nodeType.includes('tree') || !knownNonTreeTypes.includes(nodeType);
-/

/-- The fixed list of known non-tree tags from the source. -/
def knownNonTreeTypes : List String :=
  ["shrubbery", "utilitypole", "bench", "hydrant", "rock", "illustration", "adcolumn", "ac_unit"]

/-- Embeds `rawType.toLowerCase().trim()`. -/
def normalizeTag (tag : String) : String := jsTrim (jsToLower tag)

/-- The source's tree test on the normalized tag. -/
def isTreeTag (nodeType : String) : Bool :=
  jsIncludes nodeType "tree" || !(knownNonTreeTypes.contains nodeType)

/-- The categories a point instance can be classified into (tree covers the
trunk+foliage pair emitted for tree nodes). -/
inductive NodeClass
  | tree
  | shrubbery
  | utilityPole
  | bench
  | defaultBlock
deriving DecidableEq, Repr

/-- The classification chain on the normalized tag: the aggressive tree
fallback, then the exact-match table of the else branch (`utilitypole` is
renamed to the camel-case category, `shrubbery` and `bench` keep their name,
the remaining known non-tree tags fall through to the default block). -/
def classifyCore (nodeType : String) : NodeClass :=
  if isTreeTag nodeType then .tree
  else if nodeType = "utilitypole" then .utilityPole
  else if nodeType = "shrubbery" then .shrubbery
  else if nodeType = "bench" then .bench
  else .defaultBlock

/-- The classifier applied to a node's raw `type` tag (with `instanceType`
absent): the `|| 'default'` substitution for a falsy tag, normalization,
then the classification chain. -/
def classifyRawTag (tag : String) : NodeClass :=
  classifyCore (normalizeTag (jsStrOr (some tag) "default"))

/-- The claim's tree condition, transliterated from the spec sentence: the
normalized tag contains "tree" or is not a member of the fixed set. -/
def claimTreeCond (tag : String) : Prop :=
  jsIncludes (normalizeTag tag) "tree" = true ∨ normalizeTag tag ∉ knownNonTreeTypes

instance (tag : String) : Decidable (claimTreeCond tag) := by
  unfold claimTreeCond
  infer_instance

/-- The source's boolean tree test agrees with the claim's disjunction. -/
theorem isTreeTag_iff (n : String) :
    isTreeTag n = true ↔ (jsIncludes n "tree" = true ∨ n ∉ knownNonTreeTypes) := by
  simp [isTreeTag, List.contains, List.elem_iff]

/-- For a truthy (non-empty) tag the `|| 'default'` substitution is the identity. -/
theorem classifyRawTag_eq_core (tag : String) (h : tag ≠ "") :
    classifyRawTag tag = classifyCore (normalizeTag tag) := by
  unfold classifyRawTag
  rw [show jsStrOr (some tag) "default" = tag from by simp [jsStrOr, h]]

/-- Claim C1: the point-instance classifier is total (it is a function into
the five-constructor `NodeClass`, so it yields exactly one category and
cannot throw), classifies as tree exactly when the normalized tag contains
"tree" or is not in the fixed known-non-tree set, and otherwise maps
"utilitypole" to the utility-pole category, "shrubbery" to shrubbery,
"bench" to bench, and every remaining member of the set to the default
block. -/
theorem classifier_characterization (tag : String) :
    (classifyRawTag tag = .tree ↔ claimTreeCond tag) ∧
    (normalizeTag tag = "utilitypole" → classifyRawTag tag = .utilityPole) ∧
    (normalizeTag tag = "shrubbery" → classifyRawTag tag = .shrubbery) ∧
    (normalizeTag tag = "bench" → classifyRawTag tag = .bench) ∧
    (normalizeTag tag ∈ (["hydrant", "rock", "illustration", "adcolumn", "ac_unit"] : List String) →
      classifyRawTag tag = .defaultBlock) := by
  have hne : ∀ n : String, normalizeTag tag = n → n ≠ "" → tag ≠ "" := by
    intro n hn hne0 he
    subst he
    rw [show normalizeTag "" = "" from rfl] at hn
    exact hne0 hn.symm
  refine ⟨?_, ?_, ?_, ?_, ?_⟩
  · by_cases h : tag = ""
    · subst h; decide
    · rw [classifyRawTag_eq_core tag h]
      unfold classifyCore claimTreeCond
      by_cases ht : isTreeTag (normalizeTag tag) = true
      · simp only [ht, if_true]
        exact iff_of_true trivial ((isTreeTag_iff _).mp ht)
      · have ht' : isTreeTag (normalizeTag tag) = false := by simpa using ht
        simp only [ht', Bool.false_eq_true, if_false]
        constructor
        · intro hc
          exfalso
          split_ifs at hc
        · intro hc
          exact absurd ((isTreeTag_iff _).mpr hc) ht
  · intro hn
    rw [classifyRawTag_eq_core tag (hne _ hn (by decide)), hn]
    decide
  · intro hn
    rw [classifyRawTag_eq_core tag (hne _ hn (by decide)), hn]
    decide
  · intro hn
    rw [classifyRawTag_eq_core tag (hne _ hn (by decide)), hn]
    decide
  · intro hn
    simp only [List.mem_cons, List.mem_singleton, List.not_mem_nil, or_false] at hn
    rcases hn with hn | hn | hn | hn | hn <;>
      · rw [classifyRawTag_eq_core tag (hne _ hn (by decide)), hn]; decide

/-- Witness for C1 at concrete tags: a whitespace-and-case-dirty pole tag
maps to the utility-pole category, and an unknown tag falls back to tree. -/
theorem classifier_characterization_witness :
    classifyRawTag " UtilityPole " = .utilityPole ∧ classifyRawTag "Planter_01" = .tree :=
  ⟨(classifier_characterization " UtilityPole ").2.1 (by decide),
   (classifier_characterization "Planter_01").1.mpr (by decide)⟩

/-! ### Node ingestion / instance synthesis (geometry effect, nodes branch)

Source:
  const x = node.x || 0; const y = node.y || 0; const z = node.z || 0;
  const scale = node.scale || 1;
  ... isTree branch emits trunk (scale · 0.0625 / 0.125 / 0.0625) and foliage
  (scale · 0.156 cube, offset up by treeScale · 0.156) with
  treeScale = Math.max(scale, 1); the else branch emits one instance with
  finalScale = Math.max(scale, 1) · 0.5 and the infrastructure color lookup.
0.0625 and 0.125 are the exact binary doubles 1/16 and 1/8; the literal
0.156 is embedded as the decimal rational 39/250 (the theorems below only
use identities that are invariant under the double rounding of 0.156).
-/

/-- A point-instance record of the API payload; every field may be absent. -/
structure RawNode where
  instanceType : Option String := none
  type : Option String := none
  x : Option ℚ := none
  y : Option ℚ := none
  z : Option ℚ := none
  scale : Option ℚ := none
deriving DecidableEq, Repr

/-- The per-category instance batch keys of the `instances` record. -/
inductive InstanceCategory
  | tree_trunk
  | tree_foliage
  | shrubbery
  | utilityPole
  | bench
  | defaultBlock
deriving DecidableEq, Repr

/-- One entry pushed into an instance batch: category, position, non-uniform
scale vector and color (the random yaw is visual de-uniformity only and is
not part of the ingestion data model). -/
structure NodeInstance where
  category : InstanceCategory
  position : ℚ × ℚ × ℚ
  scaleVec : ℚ × ℚ × ℚ
  color : String
deriving DecidableEq, Repr

/-- The table `COLORS.infrastructure` as an association list, plus its default key. -/
def infrastructureColors : List (String × String) :=
  [("tree", "#228B22"), ("shrubbery", "#8FBC8F"), ("bench", "#A0522D"),
   ("utilityPole", "#696969"), ("default", "#AAAAAA")]

/-- Embeds `COLORS.infrastructure[nodeType] || COLORS.infrastructure[rawType] ||
COLORS.infrastructure.default` (every table entry is a non-empty, hence
truthy, string). -/
def infraColorFor (nodeType rawType : String) : String :=
  match infrastructureColors.lookup nodeType with
  | some c => c
  | none =>
    match infrastructureColors.lookup rawType with
    | some c => c
    | none => "#AAAAAA"

/-- Ingest one point node: field defaulting, tag normalization, the tree
fallback, then instance synthesis exactly as in the geometry effect. -/
def ingestNode (node : RawNode) : List NodeInstance :=
  let x := jsNumOr node.x 0
  let y := jsNumOr node.y 0
  let z := jsNumOr node.z 0
  let scale := jsNumOr node.scale 1
  let rawType := jsStrOr node.instanceType (jsStrOr node.type "default")
  let nodeType := normalizeTag rawType
  if isTreeTag nodeType then
    let treeScale := max scale 1
    [ { category := .tree_trunk, position := (x, y, z),
        scaleVec := (treeScale * (1/16), treeScale * (1/8), treeScale * (1/16)),
        color := "#5D4037" },
      { category := .tree_foliage, position := (x, y + treeScale * (39/250), z),
        scaleVec := (treeScale * (39/250), treeScale * (39/250), treeScale * (39/250)),
        color := "#228B22" } ]
  else
    let category :=
      if nodeType = "utilitypole" then InstanceCategory.utilityPole
      else if nodeType = "shrubbery" then .shrubbery
      else if nodeType = "bench" then .bench
      else .defaultBlock
    let finalScale := max scale 1 * (1/2)
    [ { category := category, position := (x, y, z),
        scaleVec := (finalScale, finalScale, finalScale),
        color := infraColorFor nodeType rawType } ]

/-- Claim C8: tree trunk and foliage dimensions use an effective scale of
`max(scale, 1)`, so any input scale below 1 produces exactly the instances
produced by scale 1 (this also covers the single-instance categories, whose
scale is `max(scale, 1) · 0.5`); and every non-tree node emits one instance
whose scale vector is uniformly `max(scale, 1) · 0.5`. -/
theorem scale_floor (node : RawNode) (s : ℚ) :
    (s < 1 → ingestNode { node with scale := some s } = ingestNode { node with scale := some 1 }) ∧
    (isTreeTag (normalizeTag (jsStrOr node.instanceType (jsStrOr node.type "default"))) = false →
      (ingestNode node).map (fun i => i.scaleVec) =
        [(max (jsNumOr node.scale 1) 1 * (1/2), max (jsNumOr node.scale 1) 1 * (1/2),
          max (jsNumOr node.scale 1) 1 * (1/2))]) := by
  constructor
  · intro hs
    have h1 : max (jsNumOr (some s) 1) 1 = 1 := by
      simp only [jsNumOr]
      split_ifs with h0
      · simp
      · exact max_eq_right hs.le
    have h2 : max (jsNumOr (some 1) 1) 1 = 1 := by norm_num [jsNumOr]
    simp only [ingestNode]
    rw [h1, h2]
  · intro ht
    simp only [ingestNode, ht, Bool.false_eq_true, if_false, List.map_cons, List.map_nil]

/-- Witness for C8: a tree node with input scale 0.3 yields the same
instances as with scale 1, and a bench node with input scale 1/4 gets the
uniform scale vector 1/2. -/
theorem scale_floor_witness :
    ingestNode { type := some "tree", x := some 5, z := some 7, scale := some (3/10) } =
      ingestNode { type := some "tree", x := some 5, z := some 7, scale := some 1 } ∧
    (ingestNode { type := some "bench", scale := some (1/4) }).map (fun i => i.scaleVec) =
      [(1/2, 1/2, 1/2)] := by
  constructor
  · exact (scale_floor { type := some "tree", x := some 5, z := some 7 } (3/10)).1 (by norm_num)
  · have h := (scale_floor { type := some "bench", scale := some (1/4) } 0).2 (by decide)
    rw [h]
    norm_num [jsNumOr]

/-- Claim C10: ingesting a node with absent fields never fails (ingestion is
a total function): a missing x, y or z behaves as 0, a missing scale as 1,
a missing tag as the string "default"; and the all-absent node yields a
trunk and foliage pair at the origin with the floor scale 1. -/
theorem node_field_defaults (node : RawNode) :
    (ingestNode { node with x := none } = ingestNode { node with x := some 0 }) ∧
    (ingestNode { node with y := none } = ingestNode { node with y := some 0 }) ∧
    (ingestNode { node with z := none } = ingestNode { node with z := some 0 }) ∧
    (ingestNode { node with scale := none } = ingestNode { node with scale := some 1 }) ∧
    (ingestNode { node with instanceType := none, type := none } =
      ingestNode { node with instanceType := none, type := some "default" }) ∧
    ingestNode {} =
      [ { category := .tree_trunk, position := (0, 0, 0),
          scaleVec := (1/16, 1/8, 1/16), color := "#5D4037" },
        { category := .tree_foliage, position := (0, 39/250, 0),
          scaleVec := (39/250, 39/250, 39/250), color := "#228B22" } ] := by
  refine ⟨?_, ?_, ?_, ?_, ?_, ?_⟩
  · simp [ingestNode, jsNumOr]
  · simp [ingestNode, jsNumOr]
  · simp [ingestNode, jsNumOr]
  · simp [ingestNode, jsNumOr]
  · simp [ingestNode, jsStrOr]
  · have ht : isTreeTag (normalizeTag "default") = true := by decide
    simp only [ingestNode]
    norm_num [jsNumOr, jsStrOr, ht]

end CityWeft

namespace CityWeft

/-! ### Layer visibility (layer-visibility effect)

Source:
  Object.entries(layerVisibility).forEach(([key, visible]) => { ... })
  surface: group.visible = visible._group, then per child
  child.visible = (visible)[child.userData.subtype || 'default'] ?? true;
  other layers: group.visible = visible.
The six layer groups of `layerGroupsRef` are modelled as a fixed record;
a child's mesh identity is an opaque `geomId` (the effect never creates,
destroys or reorders children).
-/

/-- A scene child of a layer group: mesh identity, its `userData.subtype`
("" models an absent subtype) and its own visible flag. -/
structure SceneChild where
  geomId : Nat
  subtype : String
  visible : Bool
deriving DecidableEq, Repr

/-- A layer group: its visible flag and its children. -/
structure LayerGroup where
  visible : Bool
  children : List SceneChild
deriving DecidableEq, Repr

/-- The surface entry of the visibility map: the `_group` boolean plus the
per-subtype boolean keys present in the map. -/
structure SurfaceVisibility where
  group : Bool
  subKeys : List (String × Bool)
deriving DecidableEq, Repr

/-- The `layerVisibility` state: one boolean per plain layer, and the
structured surface entry. -/
structure LayerVisibility where
  buildings : Bool
  surface : SurfaceVisibility
  vegetation : Bool
  infrastructure : Bool
  barriers : Bool
  topography : Bool
deriving DecidableEq, Repr

/-- The six layer groups of `layerGroupsRef.current`. -/
structure SceneLayers where
  buildings : LayerGroup
  surface : LayerGroup
  vegetation : LayerGroup
  infrastructure : LayerGroup
  barriers : LayerGroup
  topography : LayerGroup
deriving DecidableEq, Repr

/-- Embeds `child.userData.subtype || 'default'`. -/
def effSubtype (c : SceneChild) : String :=
  if c.subtype = "" then "default" else c.subtype

/-- Embeds `(visible)[type] !== undefined ? (visible)[type] : true`. -/
def lookupSubFlag (m : List (String × Bool)) (k : String) : Bool :=
  (m.lookup k).getD true

/-- The surface branch of the visibility effect. -/
def applySurface (v : SurfaceVisibility) (g : LayerGroup) : LayerGroup :=
  { visible := v.group,
    children := g.children.map fun c =>
      { c with visible := lookupSubFlag v.subKeys (effSubtype c) } }

/-- One run of the layer-visibility effect over all six groups. -/
def applyVisibility (v : LayerVisibility) (s : SceneLayers) : SceneLayers :=
  { buildings := { s.buildings with visible := v.buildings },
    surface := applySurface v.surface s.surface,
    vegetation := { s.vegetation with visible := v.vegetation },
    infrastructure := { s.infrastructure with visible := v.infrastructure },
    barriers := { s.barriers with visible := v.barriers },
    topography := { s.topography with visible := v.topography } }

/-- three.js effective visibility of a surface child: the surface group's
flag AND the child's own flag. -/
def effectiveSurfaceVisible (s : SceneLayers) (c : SceneChild) : Bool :=
  s.surface.visible && c.visible

/-- The layer names the UI can toggle. -/
inductive LayerName
  | buildings
  | surface
  | vegetation
  | infrastructure
  | barriers
  | topography
deriving DecidableEq, Repr

/-- Toggle one layer's boolean in the visibility map (for the surface layer
this is the `_group` boolean; its subtype keys are untouched). -/
def setLayerVisible (L : LayerName) (b : Bool) (v : LayerVisibility) : LayerVisibility :=
  match L with
  | .buildings => { v with buildings := b }
  | .surface => { v with surface := { v.surface with group := b } }
  | .vegetation => { v with vegetation := b }
  | .infrastructure => { v with infrastructure := b }
  | .barriers => { v with barriers := b }
  | .topography => { v with topography := b }

/-- Read one layer's boolean from the visibility map. -/
def getLayerVisible (L : LayerName) (v : LayerVisibility) : Bool :=
  match L with
  | .buildings => v.buildings
  | .surface => v.surface.group
  | .vegetation => v.vegetation
  | .infrastructure => v.infrastructure
  | .barriers => v.barriers
  | .topography => v.topography

/-- The geometry skeleton of a group: identities and subtypes, flags erased. -/
def groupSkeleton (g : LayerGroup) : List (Nat × String) :=
  g.children.map fun c => (c.geomId, c.subtype)

/-- The geometry skeleton of the whole scene. -/
def sceneSkeleton (s : SceneLayers) : List (List (Nat × String)) :=
  [groupSkeleton s.buildings, groupSkeleton s.surface, groupSkeleton s.vegetation,
   groupSkeleton s.infrastructure, groupSkeleton s.barriers, groupSkeleton s.topography]

/-- A later visibility run fully overrides an earlier one. -/
theorem applySurface_override (v v' : SurfaceVisibility) (g : LayerGroup) :
    applySurface v (applySurface v' g) = applySurface v g := by
  simp only [applySurface, List.map_map]
  rfl

/-- A later visibility run fully overrides an earlier one, scene-wide. -/
theorem applyVisibility_override (v v' : LayerVisibility) (s : SceneLayers) :
    applyVisibility v (applyVisibility v' s) = applyVisibility v s := by
  simp only [applyVisibility, applySurface_override]

/-- Applying visibility never changes the geometry skeleton. -/
theorem applyVisibility_skeleton (v : LayerVisibility) (s : SceneLayers) :
    sceneSkeleton (applyVisibility v s) = sceneSkeleton s := by
  simp [sceneSkeleton, groupSkeleton, applyVisibility, applySurface, List.map_map]

/-- Claim C6: after a visibility update, a surface child is effectively
visible iff the surface `_group` boolean is true AND its own subtype flag
is true, where a subtype key absent from the map defaults to true. -/
theorem surface_visibility_composition (v : LayerVisibility) (s : SceneLayers)
    (c : SceneChild) (hc : c ∈ (applyVisibility v s).surface.children) :
    effectiveSurfaceVisible (applyVisibility v s) c =
      (v.surface.group && lookupSubFlag v.surface.subKeys (effSubtype c)) := by
  simp only [applyVisibility, applySurface, List.mem_map] at hc
  obtain ⟨c0, _, rfl⟩ := hc
  simp [effectiveSurfaceVisible, applyVisibility, applySurface, effSubtype]

/-- A sample visibility map: surface group on, footway subtype switched off. -/
def sampleVisibility : LayerVisibility :=
  { buildings := true,
    surface := { group := true, subKeys := [("footway", false), ("roadway", true)] },
    vegetation := true, infrastructure := true, barriers := true, topography := true }

/-- A sample scene with two surface children and one building. -/
def sampleScene : SceneLayers :=
  { buildings := { visible := true, children := [⟨10, "", true⟩] },
    surface := { visible := true, children := [⟨1, "footway", true⟩, ⟨2, "water", true⟩] },
    vegetation := { visible := true, children := [] },
    infrastructure := { visible := true, children := [] },
    barriers := { visible := true, children := [] },
    topography := { visible := true, children := [] } }

/-- Witness for C6: in the sample scene the footway child ends up hidden
(group on, subtype flag off). -/
theorem surface_visibility_composition_witness :
    effectiveSurfaceVisible (applyVisibility sampleVisibility sampleScene) ⟨1, "footway", false⟩ =
      (sampleVisibility.surface.group &&
        lookupSubFlag sampleVisibility.surface.subKeys (effSubtype ⟨1, "footway", false⟩)) :=
  surface_visibility_composition sampleVisibility sampleScene ⟨1, "footway", false⟩ (by decide)

/-- Claim C7: for every layer and any starting state, toggling the layer
visible, hidden and visible again with no geometry change restores exactly
the state produced by the original visibility map (including independently
toggled surface subtype flags, which are carried unchanged through the
toggle); and applying visibility never destroys or re-creates geometry. -/
theorem layer_toggle_restores (L : LayerName) (v : LayerVisibility) (s : SceneLayers)
    (h : getLayerVisible L v = true) :
    (applyVisibility (setLayerVisible L true (setLayerVisible L false v))
        (applyVisibility (setLayerVisible L false v) (applyVisibility v s)) =
      applyVisibility v s) ∧
    (∀ w : LayerVisibility, sceneSkeleton (applyVisibility w s) = sceneSkeleton s) := by
  constructor
  · have hv : setLayerVisible L true (setLayerVisible L false v) = v := by
      obtain ⟨b, ⟨sg, sk⟩, vg, i, ba, t⟩ := v
      cases L <;> simp_all [setLayerVisible, getLayerVisible]
    rw [hv, applyVisibility_override, applyVisibility_override]
  · intro w
    exact applyVisibility_skeleton w s

/-- Witness for C7: toggling the surface layer off and on in the sample
scene restores the state of the original map. -/
theorem layer_toggle_restores_witness :
    (applyVisibility (setLayerVisible .surface true (setLayerVisible .surface false sampleVisibility))
        (applyVisibility (setLayerVisible .surface false sampleVisibility)
          (applyVisibility sampleVisibility sampleScene)) =
      applyVisibility sampleVisibility sampleScene) ∧
    sceneSkeleton (applyVisibility sampleVisibility sampleScene) = sceneSkeleton sampleScene := by
  have h := layer_toggle_restores .surface sampleVisibility sampleScene (by decide)
  exact ⟨h.1, h.2 sampleVisibility⟩

end CityWeft

namespace CityWeft

/-! ### Climate fetch and scene generation (climate-fetch effect)

Source:
  useEffect(() => {
    if (geometryData?.origin) {
      const [lat, lon] = geometryData.origin;
      fetchClimateData(lat, lon).then(data => { if (data) { setClimateData(data); } });
    }
  }, [geometryData]);
and, in the scene-setup effect, `setSceneGeneration(g => g + 1)` on every
geometry load.  The resolve handler stores any non-null result; it reads
neither `sceneGeneration` nor any per-fetch tag.
-/

/-- One hourly climate sample as fetched. -/
structure ClimateSample where
  temperature : ℚ
  windSpeed : ℚ
  windDirection : ℚ
deriving DecidableEq, Repr

/-- The climate API response shape the component consumes. -/
structure ClimateResponse where
  current : ClimateSample
  hourly : List ClimateSample
deriving DecidableEq, Repr

/-- Component state relevant to the climate fetch.  The issue-time
generation recorded in `pending` is ghost instrumentation needed to state
the claim; the source attaches no such tag to its fetches. -/
structure ClimateMachine where
  sceneGeneration : Nat
  climateData : Option ClimateResponse
  nextFetchId : Nat
  pending : List (Nat × Nat)
deriving DecidableEq, Repr

/-- Events touching the climate state: a geometry reload (the scene-setup
effect bumps the generation and the climate effect issues a fresh fetch),
and the arrival of a fetch result. -/
inductive ClimateEvent
  | reloadGeometry
  | resolveFetch (id : Nat) (result : Option ClimateResponse)

/-- One step of the machine.  The resolve branch embeds the source's
`.then(data => { if (data) setClimateData(data) })`: an arriving non-null
result is stored unconditionally, with no generation comparison. -/
def stepClimate (s : ClimateMachine) : ClimateEvent → ClimateMachine
  | .reloadGeometry =>
    { s with sceneGeneration := s.sceneGeneration + 1,
             pending := s.pending ++ [(s.nextFetchId, s.sceneGeneration + 1)],
             nextFetchId := s.nextFetchId + 1 }
  | .resolveFetch id result =>
    { s with pending := s.pending.filter fun p => p.1 != id,
             climateData := match result with
               | some d => some d
               | none => s.climateData }

/-- Run a trace from the initial (no geometry, no climate) state. -/
def runClimate (events : List ClimateEvent) : ClimateMachine :=
  events.foldl stepClimate
    { sceneGeneration := 0, climateData := none, nextFetchId := 0, pending := [] }

/-- A concrete climate payload for the stale fetch. -/
def staleClimate : ClimateResponse := { current := ⟨20, 5, 90⟩, hourly := [] }

/-- Counterexample to claim C2: fetch 0 is issued under generation 1, the
geometry is reloaded (generation 2, fetch 1 issued), and then the
generation-1 result arrives — and it populates the climate state, because
the resolve handler performs no generation check.  The claim's required
discard does not happen. -/
theorem stale_climate_result_populates_state :
    (runClimate [.reloadGeometry]).pending = [(0, 1)] ∧
    (runClimate [.reloadGeometry, .reloadGeometry]).sceneGeneration = 2 ∧
    (runClimate [.reloadGeometry, .reloadGeometry]).climateData = none ∧
    (runClimate [.reloadGeometry, .reloadGeometry,
      .resolveFetch 0 (some staleClimate)]).climateData = some staleClimate := by
  refine ⟨rfl, rfl, rfl, rfl⟩

/-- Claim C2 amended: climate fetches carry no generation tag and stale
results are not discarded — whatever the machine state (in particular,
whatever the current scene generation), an arriving non-null result is
stored unconditionally; a null result and a reload leave the climate state
unchanged, so staleness is mitigated only by the fresh fetch each reload
issues. -/
theorem climate_resolve_is_unconditional (s : ClimateMachine) (id : Nat) :
    (∀ d : ClimateResponse, (stepClimate s (.resolveFetch id (some d))).climateData = some d) ∧
    (stepClimate s (.resolveFetch id none)).climateData = s.climateData ∧
    (stepClimate s .reloadGeometry).climateData = s.climateData :=
  ⟨fun _ => rfl, rfl, rfl⟩

/-! ### Solar-path arc sampling (solar-path effect)

Source:
  for (let h = 4; h <= 20; h += 0.25) { ...
    const pos = SunCalc.getPosition(date, lat, lon);
    if (pos.altitude > -0.1) { ... pathPoints.push(...); } }
0.25 is a binary-exact double, so the JS loop visits exactly the 65 values
4, 4.25, ..., 20.  The altitude computation lives in the external SunCalc
library and is abstracted as a function from the sample hour.
-/

/-- The 65 sample times 04:00..20:00 at 15-minute resolution. -/
def sampleHours : List ℚ := (List.range 65).map fun k : ℕ => (4 : ℚ) + (k : ℚ) / 4

/-- The samples the arc keeps: strictly above −0.1 (`pos.altitude > -0.1`). -/
def keptSamples (altitudeAt : ℚ → ℚ) : List ℚ :=
  sampleHours.filter fun h => decide (-(1/10 : ℚ) < altitudeAt h)

/-- Counterexample to claim C4: at an altitude of exactly −0.1 rad the claim
requires the sample to appear in the path, but the source's strict
comparison drops it — with the constant altitude −0.1, the 04:00 sample is
in range and at the cutoff, yet is not kept (indeed nothing is kept). -/
theorem solar_cutoff_boundary_dropped :
    (4 : ℚ) ∈ sampleHours ∧ (-(1/10 : ℚ) ≥ -(1/10)) ∧
    (4 : ℚ) ∉ keptSamples (fun _ => -(1/10)) ∧
    keptSamples (fun _ => -(1/10)) = [] := by
  refine ⟨?_, le_refl _, ?_, ?_⟩
  · simp only [sampleHours, List.mem_map]
    exact ⟨0, by decide, by norm_num⟩
  · simp [keptSamples, List.mem_filter]
  · simp [keptSamples, List.filter_eq_nil_iff]

/-- Claim C4 amended: the arc samples 04:00–20:00 at 15-minute resolution
and keeps exactly the samples whose altitude is strictly greater than
−0.1 rad (so a sample at exactly −0.1 is excluded): membership in the kept
list is equivalent to being a sample hour with altitude > −0.1. -/
theorem solar_path_strict_cutoff (altitudeAt : ℚ → ℚ) (h : ℚ) :
    (h ∈ keptSamples altitudeAt ↔ h ∈ sampleHours ∧ -(1/10 : ℚ) < altitudeAt h) ∧
    sampleHours.length = 65 ∧
    (h ∈ sampleHours ↔ ∃ k : ℕ, k < 65 ∧ h = (4 : ℚ) + (k : ℚ) / 4) := by
  refine ⟨?_, ?_, ?_⟩
  · simp [keptSamples, List.mem_filter]
  · unfold sampleHours
    rw [List.length_map, List.length_range]
  · unfold sampleHours
    rw [List.mem_map]
    constructor
    · rintro ⟨k, hk, he⟩
      exact ⟨k, List.mem_range.mp hk, he.symm⟩
    · rintro ⟨k, hk, he⟩
      exact ⟨k, List.mem_range.mpr hk, he.symm⟩

end CityWeft

namespace CityWeft

/-! ### Environmental overlays and the map-tile underlay

A three.js `Box3` from `setFromObject` on a group is either empty (min/max
at the infinities; no drawable content) or a finite min/max pair, modelled
as `Option BoxData` with `none` for the empty box.  `getSize`/`getCenter`
return the zero vector for an empty box, exactly as three.js does.  Each
overlay effect below is summarized by the scene nodes it adds (everything
it passes to `scene.add`, including groups), mirroring its guards verbatim;
the effects are total functions, so no embedded path can throw.
-/

/-- A non-empty axis-aligned bounding box. -/
structure BoxData where
  minX : ℚ
  minY : ℚ
  minZ : ℚ
  maxX : ℚ
  maxY : ℚ
  maxZ : ℚ
deriving DecidableEq, Repr

/-- Embeds `box.getSize(...)`: zero for the empty box. -/
def boxSize : Option BoxData → ℚ × ℚ × ℚ
  | none => (0, 0, 0)
  | some b => (b.maxX - b.minX, b.maxY - b.minY, b.maxZ - b.minZ)

/-- The 6×6 cell indices of the wind-arrow grid (`cols = 6`, `rows = 6`). -/
def windArrowGrid : List (Nat × Nat) :=
  (List.range 6).flatMap fun i => (List.range 6).map fun j => (i, j)

/-- The wind-visualization effect: the ArrowHelper nodes it adds, each with
the arrow length computed from the box size (`min(stepX, stepZ) * 0.6`
with `step = size * 0.8 / 5`).  Guards are the source's
`if (!sceneRef.current || !climateData || !meshGroupRef.current) return;`
then `if (isClimateEnabled)`.  The bounding box feeds only the arrow
geometry: the effect has no emptiness check, so the 36 arrows are created
even for an empty box (their positions then involve the empty-box
infinities, which is representable in JS and throws nothing). -/
def windEffectArrows (hasScene : Bool) (climate : Option ClimateResponse)
    (hasMeshGroup : Bool) (enabled : Bool) (box : Option BoxData) :
    List (Nat × Nat × ℚ) :=
  if !hasScene || climate.isNone || !hasMeshGroup then []
  else if enabled then
    let size := boxSize box
    let stepX := size.1 * (1 - 2 * (1/10)) / 5
    let stepZ := size.2.2 * (1 - 2 * (1/10)) / 5
    let len := min stepX stepZ * (3/5)
    windArrowGrid.map fun ij => (ij.1, ij.2, len)
  else []

/-- What one solar-path build adds: the node count (root group, compass
group, 3 rings, 2 cardinal lines, 4 label sprites, the arc line when more
than one sample survives, the sun ball, the beam) and the compass radius
`max(size.x, size.z) * 1.2`. -/
structure SolarPathBuild where
  nodesAdded : Nat
  radius : ℚ
deriving DecidableEq, Repr

/-- The solar-path effect.  Guards are the source's
`if (!sceneRef.current || !meshGroupRef.current) return;` then
`if (!showSolarPath || !geometryData?.origin) return;` — there is no
bounding-box emptiness check, so with an empty box the build still happens
(with radius 0). -/
def solarPathEffect (hasScene hasMeshGroup showSolarPath : Bool)
    (origin : Option (ℚ × ℚ)) (altitudeAt : ℚ → ℚ) (box : Option BoxData) :
    Option SolarPathBuild :=
  if !hasScene || !hasMeshGroup then none
  else if !showSolarPath || origin.isNone then none
  else
    let size := boxSize box
    let radius := max size.1 size.2.2 * (6/5)
    let pathPoints := keptSamples altitudeAt
    let arcNodes := if pathPoints.length > 1 then 1 else 0
    some { nodesAdded := 1 + 1 + 3 + 2 + 4 + arcNodes + 1 + 1, radius := radius }

/-- The sun-study effect repositions the existing directional light, adapts
its shadow camera and repaints the scene background; it contains no
`scene.add` call in either branch, so it adds zero scene nodes on every
input (the `enabled` branch additionally returns early without an origin). -/
def sunStudyEffectNodes (_hasLight _hasMeshGroup _enabled : Bool)
    (_origin : Option (ℚ × ℚ)) : Nat :=
  0

end CityWeft

namespace CityWeft

/-! ### Map-tile underlay projector (map-underlay effect)

The zoom formula feeds `Math.floor(Math.log2(...) - 8)` into the clamp and
web-Mercator pixel math yields the tile index range; `log2`/`tan` have no
exact rational embedding, so the integer `targetZoom` and the index range
`minTx..maxTy` enter the model as parameters, while the guards, the clamp,
the +3 padding, the 300-tile cap and the warning are embedded exactly.
-/

/-- Embeds `Math.max(15, Math.min(19, targetZoom))`. -/
def clampZoom (targetZoom : ℤ) : ℤ := max 15 (min 19 targetZoom)

/-- The integers `lo..hi` inclusive (empty when `hi < lo`). -/
def tileRangeList (lo hi : ℤ) : List ℤ :=
  (List.range (hi + 1 - lo).toNat).map fun k : ℕ => lo + (k : ℤ)

/-- The inner `for (ty ...)` loop: `if (loadedCount >= 300) break;` then
schedule the tile.  The running count is the length of the accumulated
schedule. -/
def scheduleTilesInner (tx : ℤ) (tys : List ℤ) (acc : List (ℤ × ℤ)) : List (ℤ × ℤ) :=
  match tys with
  | [] => acc
  | ty :: rest =>
    if acc.length ≥ 300 then acc
    else scheduleTilesInner tx rest (acc ++ [(tx, ty)])

/-- The nested tile loops over the padded grid (`pad = 3`).  The `break`
only leaves the inner loop, but the count check re-fires at the head of
every inner iteration, so the cap is global. -/
def scheduleTiles (minTx maxTx minTy maxTy : ℤ) : List (ℤ × ℤ) :=
  (tileRangeList (minTx - 3) (maxTx + 3)).foldl
    (fun acc tx => scheduleTilesInner tx (tileRangeList (minTy - 3) (maxTy + 3)) acc) []

/-- Embeds `(maxTx - minTx + 1 + 2*pad) * (maxTy - minTy + 1 + 2*pad)`. -/
def theoreticalTileCount (minTx maxTx minTy maxTy : ℤ) : ℤ :=
  (maxTx - minTx + 1 + 2 * 3) * (maxTy - minTy + 1 + 2 * 3)

/-- Embeds `if (tileCount > 300) console.warn(...)`. -/
def tileWarning (minTx maxTx minTy maxTy : ℤ) : Bool :=
  decide (300 < theoreticalTileCount minTx maxTx minTy maxTy)

/-- One map-underlay build: the clamped zoom, the scheduled tile indices,
and whether the over-cap warning was logged. -/
structure MapUnderlayBuild where
  zoom : ℤ
  tiles : List (ℤ × ℤ)
  warned : Bool
deriving DecidableEq, Repr

/-- The map-underlay effect.  Guards are the source's
`if (!sceneRef.current || !meshGroupRef.current || !geometryData?.origin)
return;`, then `if (showMapUnderlay)`, then the explicit
`if (box.isEmpty()) return;` safety check. -/
def mapUnderlayEffect (hasScene hasMeshGroup : Bool) (origin : Option (ℚ × ℚ))
    (showMapUnderlay : Bool) (box : Option BoxData)
    (targetZoom minTx maxTx minTy maxTy : ℤ) : Option MapUnderlayBuild :=
  if !hasScene || !hasMeshGroup || origin.isNone then none
  else if !showMapUnderlay then none
  else
    match box with
    | none => none
    | some _ => some
      { zoom := clampZoom targetZoom,
        tiles := scheduleTiles minTx maxTx minTy maxTy,
        warned := tileWarning minTx maxTx minTy maxTy }

/-- The inner loop never grows the schedule past 300. -/
theorem scheduleTilesInner_length_le (tx : ℤ) (tys : List ℤ) (acc : List (ℤ × ℤ))
    (h : acc.length ≤ 300) : (scheduleTilesInner tx tys acc).length ≤ 300 := by
  induction tys generalizing acc with
  | nil => simpa [scheduleTilesInner] using h
  | cons ty rest ih =>
    rw [scheduleTilesInner]
    split_ifs with hlen
    · exact h
    · apply ih
      have hlt : acc.length < 300 := lt_of_not_ge hlen
      simp only [List.length_append, List.length_cons, List.length_nil]
      omega

/-- The full nested loop never schedules more than 300 tiles. -/
theorem scheduleTiles_length_le (minTx maxTx minTy maxTy : ℤ) :
    (scheduleTiles minTx maxTx minTy maxTy).length ≤ 300 := by
  unfold scheduleTiles
  generalize tileRangeList (minTy - 3) (maxTy + 3) = tys
  generalize tileRangeList (minTx - 3) (maxTx + 3) = txs
  have key : ∀ (txs : List ℤ) (acc : List (ℤ × ℤ)), acc.length ≤ 300 →
      (txs.foldl (fun acc tx => scheduleTilesInner tx tys acc) acc).length ≤ 300 := by
    intro txs
    induction txs with
    | nil => intro acc h; simpa using h
    | cons t ts ih =>
      intro acc h
      exact ih _ (scheduleTilesInner_length_le t tys acc h)
  exact key txs [] (by simp)

end CityWeft

namespace CityWeft

/-- Claim C5: on every input at most 300 tiles are scheduled; when the
theoretical padded-grid count exceeds 300 the warning is logged (and the
schedule is still capped rather than anything throwing — the projector is a
total function); and the computed zoom is always clamped into [15, 19]. -/
theorem tile_cap_zoom_clamp (minTx maxTx minTy maxTy targetZoom : ℤ) :
    (scheduleTiles minTx maxTx minTy maxTy).length ≤ 300 ∧
    (300 < theoreticalTileCount minTx maxTx minTy maxTy →
      tileWarning minTx maxTx minTy maxTy = true) ∧
    15 ≤ clampZoom targetZoom ∧ clampZoom targetZoom ≤ 19 := by
  refine ⟨scheduleTiles_length_le _ _ _ _, ?_, le_max_left _ _, ?_⟩
  · intro h
    simp [tileWarning, h]
  · exact max_le (by norm_num) (min_le_left _ _)

/-- Witness for C5 at a pathological grid: a 21×21 tile span (27×27 = 729
tiles after padding) stays capped at 300 scheduled tiles, warns, and an
out-of-range target zoom of 99 is clamped into [15, 19]. -/
theorem tile_cap_zoom_clamp_witness :
    (scheduleTiles 0 20 0 20).length ≤ 300 ∧ tileWarning 0 20 0 20 = true ∧
    15 ≤ clampZoom 99 ∧ clampZoom 99 ≤ 19 := by
  have h := tile_cap_zoom_clamp 0 20 0 20 99
  exact ⟨h.1, h.2.1 (by decide), h.2.2.1, h.2.2.2⟩

/-- A concrete climate payload enabling the wind overlay. -/
def sampleClimateForWind : ClimateResponse := ⟨⟨15, 3, 180⟩, []⟩

/-- Counterexample to claim C3: with an empty scene bounding box the
enabled wind-field recompute still adds its 36 arrow nodes and the enabled
solar-path recompute still builds its 14-node helper group (with radius 0)
— neither overlay detects the empty-bounds state and no-ops. -/
theorem empty_bounds_overlays_add_nodes :
    (windEffectArrows true (some sampleClimateForWind) true true none).length = 36 ∧
    solarPathEffect true true true (some (0, 0)) (fun _ => 1) none =
      some { nodesAdded := 14, radius := 0 } := by
  constructor
  · rfl
  · have hk : keptSamples (fun _ => (1 : ℚ)) = sampleHours := by
      unfold keptSamples
      apply List.filter_eq_self.mpr
      intro a ha
      norm_num
    have hlen : sampleHours.length = 65 := by
      unfold sampleHours
      rw [List.length_map, List.length_range]
    simp only [solarPathEffect, boxSize, hk, hlen]
    norm_num

/-- Claim C3 amended: with an absent origin the solar-path and map-underlay
recomputes add no scene nodes, the wind-field recompute adds none when the
climate data (fetched only once an origin exists) is absent, the
map-underlay recompute also no-ops on an empty bounding box through its
explicit `box.isEmpty()` guard, and the sun-study recompute adds no nodes
on any input; but the wind-field and solar-path recomputes perform no
bounding-box emptiness check and do add their helper nodes on an empty box
(see the counterexample).  No overlay recompute throws: all are total
functions of their inputs. -/
theorem overlay_degenerate_guards (hs hm en : Bool) (alt : ℚ → ℚ)
    (box : Option BoxData) (o : ℚ × ℚ) (tz a b c d : ℤ) :
    solarPathEffect hs hm en none alt box = none ∧
    mapUnderlayEffect hs hm none en box tz a b c d = none ∧
    mapUnderlayEffect hs hm (some o) en none tz a b c d = none ∧
    windEffectArrows hs none hm en box = [] ∧
    sunStudyEffectNodes hs hm en (some o) = 0 ∧
    sunStudyEffectNodes hs hm en none = 0 := by
  refine ⟨?_, ?_, ?_, ?_, rfl, rfl⟩
  · simp [solarPathEffect]
  · simp [mapUnderlayEffect]
  · simp [mapUnderlayEffect]
  · simp [windEffectArrows]

/-! ### Render-capture pipeline (handleRender)

State before/after one `handleRender` invocation.  `solarHelper` and
`windHelper` carry the helper's visible flag, or `none` when the helper
does not exist; the four overlay toggles are part of the state to express
that no path of `handleRender` touches them.  The pipeline is modelled with
two outcome parameters: `captureOk` (false means the resize/render/
`toDataURL` block threw, e.g. a tainted canvas) and `downstream` (the
result of the blob fetch + `generateRender` call, merging its error status
and a rejected promise into the `catch` path).  The captured data URL's
content is abstracted to a fixed placeholder string.
-/

/-- Component state read and written by `handleRender`. -/
structure RenderState where
  rendererSize : ℚ × ℚ
  cameraAspect : ℚ
  solarHelper : Option Bool
  windHelper : Option Bool
  sunStudyEnabled : Bool
  showSolarPath : Bool
  climateEnabled : Bool
  showMapUnderlay : Bool
  isRendering : Bool
  renderError : Option String
  renderedImageUrl : Option String
  originalImageUrl : Option String
deriving DecidableEq, Repr

/-- The final state plus what the capture saw (helper visibility and
renderer size at capture time; meaningful only when `captureHappened`). -/
structure RenderOutcome where
  finalState : RenderState
  captureHappened : Bool
  captureSolar : Option Bool
  captureWind : Option Bool
  captureSize : ℚ × ℚ
deriving DecidableEq, Repr

/-- Embeds `handleRender`, step for step: the `if (!rendererRef.current ||
!nanoBananaApiKey) return;` guard; the pre-`try` state resets; saving
`wasSolarVisible`/`wasWindVisible`; hiding the helpers; saving original
size/aspect; resizing to 1376×768; the capture; the inline restore of
size, aspect and helpers; `setOriginalImageUrl`; the downstream call with
its success/error handling; the `catch` that records the error message and
the `finally` that clears `isRendering`.  When the capture block throws,
control jumps straight to `catch`/`finally`: no restore runs. -/
def handleRender (ready captureOk : Bool) (downstream : Except String String)
    (s : RenderState) : RenderOutcome :=
  if !ready then
    { finalState := s, captureHappened := false, captureSolar := none,
      captureWind := none, captureSize := (0, 0) }
  else
    let wasSolar := s.solarHelper
    let wasWind := s.windHelper
    let s1 : RenderState :=
      { s with isRendering := true, renderError := none, renderedImageUrl := none,
               solarHelper := s.solarHelper.map fun _ => false,
               windHelper := s.windHelper.map fun _ => false }
    let originalSize := s1.rendererSize
    let originalAspect := s1.cameraAspect
    let s2 := { s1 with rendererSize := ((1376 : ℚ), (768 : ℚ)),
                        cameraAspect := (1376 : ℚ) / 768 }
    if !captureOk then
      { finalState := { s2 with renderError := some "capture failed", isRendering := false },
        captureHappened := false, captureSolar := none, captureWind := none,
        captureSize := (0, 0) }
    else
      let s3 : RenderState :=
        { s2 with rendererSize := originalSize, cameraAspect := originalAspect,
                  solarHelper := match s2.solarHelper, wasSolar with
                    | some _, some v => some v
                    | x, _ => x,
                  windHelper := match s2.windHelper, wasWind with
                    | some _, some v => some v
                    | x, _ => x }
      let s4 := { s3 with originalImageUrl := some "captured-frame" }
      let s5 := match downstream with
        | .ok url => { s4 with renderedImageUrl := some url }
        | .error e => { s4 with renderError := some e }
      { finalState := { s5 with isRendering := false },
        captureHappened := true, captureSolar := s2.solarHelper,
        captureWind := s2.windHelper, captureSize := s2.rendererSize }

/-- A starting state with both helpers present and visible. -/
def sampleRenderState : RenderState :=
  { rendererSize := (800, 600), cameraAspect := 4/3, solarHelper := some true,
    windHelper := some true, sunStudyEnabled := true, showSolarPath := true,
    climateEnabled := true, showMapUnderlay := false, isRendering := false,
    renderError := none, renderedImageUrl := none, originalImageUrl := none }

/-- Counterexample to claim C9: when the capture block itself throws, the
restore — written inline in the `try` after the capture, not in a
`finally` — never runs: both helpers stay hidden and the renderer keeps
the 1376×768 capture resolution, although they were visible and 800×600
before the invocation.  This contradicts the claim's restoration
"regardless of success or failure of the capture". -/
theorem capture_failure_leaves_state_modified :
    (handleRender true false (.ok "img") sampleRenderState).finalState.solarHelper = some false ∧
    (handleRender true false (.ok "img") sampleRenderState).finalState.windHelper = some false ∧
    (handleRender true false (.ok "img") sampleRenderState).finalState.rendererSize = (1376, 768) ∧
    sampleRenderState.solarHelper = some true ∧
    sampleRenderState.rendererSize = (800, 600) :=
  ⟨rfl, rfl, rfl, rfl, rfl⟩

/-- Claim C9 amended: the helpers are hidden at capture time and the frame
is captured at 1376×768; after a successful capture the renderer size,
camera aspect and helper visibility are restored regardless of the
downstream call's success or failure; the overlay toggles are never
touched on any path (capture failure included) and every invocation ends
with `isRendering` false; but when the capture itself throws, size, aspect
and helper visibility are left modified (see the counterexample). -/
theorem render_capture_restores (ready : Bool) (downstream dStream2 : Except String String)
    (co : Bool) (s : RenderState) :
    ((handleRender true true downstream s).finalState.rendererSize = s.rendererSize ∧
     (handleRender true true downstream s).finalState.cameraAspect = s.cameraAspect ∧
     (handleRender true true downstream s).finalState.solarHelper = s.solarHelper ∧
     (handleRender true true downstream s).finalState.windHelper = s.windHelper ∧
     (handleRender true true downstream s).finalState.isRendering = false ∧
     (handleRender true true downstream s).captureSolar = (s.solarHelper.map fun _ => false) ∧
     (handleRender true true downstream s).captureWind = (s.windHelper.map fun _ => false) ∧
     (handleRender true true downstream s).captureSize = ((1376 : ℚ), (768 : ℚ))) ∧
    ((handleRender ready co dStream2 s).finalState.sunStudyEnabled = s.sunStudyEnabled ∧
     (handleRender ready co dStream2 s).finalState.showSolarPath = s.showSolarPath ∧
     (handleRender ready co dStream2 s).finalState.climateEnabled = s.climateEnabled ∧
     (handleRender ready co dStream2 s).finalState.showMapUnderlay = s.showMapUnderlay) := by
  constructor
  · rcases s with ⟨sz, asp, sol, wnd, a1, a2, a3, a4, ir, re, ru, ou⟩
    cases sol <;> cases wnd <;> cases downstream <;>
      simp [handleRender]
  · rcases s with ⟨sz, asp, sol, wnd, a1, a2, a3, a4, ir, re, ru, ou⟩
    cases ready <;> cases co <;> cases dStream2 <;> cases sol <;> cases wnd <;>
      simp [handleRender]

end CityWeft
